import Mathlib

/-!
# Verification of the Go-Plan (journey) trip-planning service

Shallow embedding of the repository's API handlers (`internal/api`, files
`part_000`/`part_001` of package `api`) and of the mailpit mailer
(`internal/mailer/mailpit/mailpit.go`), together with proofs of the
specification's claims about them.

Conventions of the embedding:
* `uuid.UUID` values are modelled as `Nat` (opaque identities; the handlers
  only compare them for equality).
* `time.Time` is modelled as `GoTime`: calendar components plus a
  time-of-day remainder.  The handlers only ever call `.Date()` (the
  year/month/day triple) and `time.Date(y, m, d, 0, 0, 0, 0, time.UTC)`
  (truncation to midnight), both of which are faithfully represented.
* The `pgstore` storage layer (generated SQL code, not part of the sources)
  is modelled from the spec as a transactional key-value-by-id store over
  lists of rows (spec section 4.3 "Persistence Port").
* The mailer and the database error channel are modelled as explicit
  parameters where a handler consults them.
-/

/-- Model of Go `time.Time`: UTC calendar components (`year`, `month`, `day`,
as returned by `Time.Date()`) plus the time-of-day `tod` (nanoseconds since
midnight; the handlers never inspect it, only preserve or zero it). -/
structure GoTime where
  year : Int
  month : Nat
  day : Nat
  tod : Nat
deriving DecidableEq, Repr

/-- Go `Time.Date()` comparison used throughout `GetTripsTripIDActivities`:
two times fall on the same calendar day iff year, month and day agree. -/
def sameDate (a b : GoTime) : Bool :=
  a.year == b.year && a.month == b.month && a.day == b.day

/-- `time.Date(itemYear, itemMonth, itemDay, 0, 0, 0, 0, time.UTC)`:
the calendar date of `t` with the time-of-day truncated to midnight. -/
def GoTime.dateOnly (t : GoTime) : GoTime :=
  { year := t.year, month := t.month, day := t.day, tod := 0 }

/-- Row of the `trips` table (`pgstore.Trip`). -/
structure Trip where
  id : Nat
  destination : String
  ownerEmail : String
  ownerName : String
  startsAt : GoTime
  endsAt : GoTime
  isConfirmed : Bool
deriving DecidableEq, Repr

/-- Row of the `participants` table (`pgstore.Participant`). -/
structure Participant where
  id : Nat
  tripID : Nat
  email : String
  isConfirmed : Bool
deriving DecidableEq, Repr

/-- Row of the `activities` table (`pgstore.Activity`). -/
structure Activity where
  id : Nat
  tripID : Nat
  title : String
  occursAt : GoTime
deriving DecidableEq, Repr

/-- `pgstore.UpdateTripParams`. -/
structure UpdateTripParams where
  id : Nat
  destination : String
  endsAt : GoTime
  startsAt : GoTime
  isConfirmed : Bool
deriving DecidableEq, Repr

/-- `spec.CreateTripRequest` (generated request body, already decoded and
validated by the request boundary). -/
structure CreateTripRequest where
  destination : String
  emailsToInvite : List String
  endsAt : GoTime
  ownerEmail : String
  ownerName : String
  startsAt : GoTime
deriving DecidableEq, Repr

/-- `spec.PutTripsTripIDJSONRequestBody`: destination and date range. -/
structure PutTripsTripIDBody where
  destination : String
  endsAt : GoTime
  startsAt : GoTime
deriving DecidableEq, Repr

/-- `spec.CreateActivityRequest`. -/
structure CreateActivityRequest where
  occursAt : GoTime
  title : String
deriving DecidableEq, Repr

/-- `pgstore.CreateActivityParams`. -/
structure CreateActivityParams where
  tripID : Nat
  title : String
  occursAt : GoTime
deriving DecidableEq, Repr

/-- `spec.GetTripActivitiesResponseInnerArray`: one activity in the
day-bucketed response. -/
structure GetTripActivitiesResponseInnerArray where
  id : Nat
  occursAt : GoTime
  title : String
deriving DecidableEq, Repr

/-- `spec.GetTripActivitiesResponseOuterArray`: one day bucket. -/
structure GetTripActivitiesResponseOuterArray where
  activities : List GetTripActivitiesResponseInnerArray
  date : GoTime
deriving DecidableEq, Repr

/-! ## The activity aggregation of `GetTripsTripIDActivities`

The handler first builds `differentDates`, a slice of `(Time, Amount)`
pairs: for each activity whose calendar date is not yet present it appends
the truncated date with amount 1, otherwise it increments the amount of the
matching entry (the amount is only used as a capacity hint and never affects
the emitted buckets).  A second pass maps each entry of `differentDates`, in
order, to a bucket containing every input activity on that date, in input
order. -/

/-- One iteration of the first loop (lines 231-257): either append a new
truncated date with amount 1, or bump the matching amount. -/
def differentDatesStep (acc : List (GoTime × Nat)) (activity : Activity) :
    List (GoTime × Nat) :=
  if !(acc.any fun item => sameDate item.1 activity.occursAt) then
    acc ++ [(activity.occursAt.dateOnly, 1)]
  else
    acc.map fun item =>
      if sameDate item.1 activity.occursAt then (item.1, item.2 + 1) else item

/-- The full first loop: fold `differentDatesStep` over the activities,
starting from the empty slice. -/
def differentDates (activities : List Activity) : List (GoTime × Nat) :=
  activities.foldl differentDatesStep []

/-- The second loop (lines 259-279): one bucket per `differentDates` entry,
holding every activity of that calendar date in input order.  (`qtd`, the
length of `activitiesResponse`, always equals `differentDates.length`: both
are grown only in the append branch of the first loop.) -/
def aggregateActivities (activities : List Activity) :
    List GetTripActivitiesResponseOuterArray :=
  (differentDates activities).map fun item =>
    { date := item.1
      activities :=
        (activities.filter fun activity => sameDate item.1 activity.occursAt).map
          fun activity =>
            { id := activity.id
              occursAt := activity.occursAt
              title := activity.title } }

/-- Written from the spec's words for the refinement claim about bucket
order: "ordered by first occurrence of each distinct date in the input" —
keep the first occurrence of each calendar date, in input order. -/
def firstSeenDates (dates : List GoTime) : List GoTime :=
  dates.foldl (fun acc d => if acc.any (fun e => sameDate e d) then acc else acc ++ [d]) []

/-! ## The persistence layer

The `store` interface of package `api` is implemented by the generated
`pgstore` package, which is not among the sources.  Following the spec
(section 4.3: a transactional key-value-by-id store; all id lookups
distinguish `NotFound`) it is modelled as three lists of rows with
SQL-style operations: a lookup is `find?` on the id, an `UPDATE ... WHERE
id = $1` maps over the rows touching exactly the matching ones (and is a
no-op when no row matches), an `INSERT` appends. -/

/-- The database state: the three tables used by the handlers. -/
structure Storage where
  trips : List Trip
  participants : List Participant
  activities : List Activity
deriving DecidableEq, Repr

/-- Modelled from the spec: `pgstore.GetTrip` — `SELECT ... FROM trips WHERE
id = $1`; `none` plays the role of `pgx.ErrNoRows`. -/
def GetTrip (s : Storage) (id : Nat) : Option Trip :=
  s.trips.find? fun trip => trip.id == id

/-- Modelled from the spec: `pgstore.GetAllTrips` — `SELECT ... FROM trips`. -/
def GetAllTrips (s : Storage) : List Trip :=
  s.trips

/-- Modelled from the spec: `pgstore.UpdateTrip` — `UPDATE trips SET
destination, ends_at, starts_at, is_confirmed WHERE id = $1`. -/
def UpdateTrip (s : Storage) (arg : UpdateTripParams) : Storage :=
  { s with
    trips := s.trips.map fun trip =>
      if trip.id == arg.id then
        { trip with
          destination := arg.destination
          endsAt := arg.endsAt
          startsAt := arg.startsAt
          isConfirmed := arg.isConfirmed }
      else trip }

/-- Modelled from the spec: `pgstore.GetParticipant` — lookup by id. -/
def GetParticipant (s : Storage) (participantID : Nat) : Option Participant :=
  s.participants.find? fun participant => participant.id == participantID

/-- Modelled from the spec: `pgstore.GetParticipants` — all participants of a
trip. -/
def GetParticipants (s : Storage) (tripID : Nat) : List Participant :=
  s.participants.filter fun participant => participant.tripID == tripID

/-- Modelled from the spec: `pgstore.ConfirmParticipant`
(`SetParticipantConfirmed`) — `UPDATE participants SET is_confirmed = true
WHERE id = $1`. -/
def ConfirmParticipant (s : Storage) (participantID : Nat) : Storage :=
  { s with
    participants := s.participants.map fun participant =>
      if participant.id == participantID then
        { participant with isConfirmed := true }
      else participant }

/-- Modelled from the spec: `pgstore.GetTripActivities` — all activities of a
trip. -/
def GetTripActivities (s : Storage) (tripID : Nat) : List Activity :=
  s.activities.filter fun activity => activity.tripID == tripID

/-- Modelled from the spec: `pgstore.CreateActivity` — insert a new activity
row; the fresh id is supplied by the id generator, modelled as a parameter. -/
def CreateActivity (s : Storage) (arg : CreateActivityParams) (newID : Nat) :
    Storage × Nat :=
  ({ s with
     activities := s.activities ++
       [{ id := newID, tripID := arg.tripID, title := arg.title,
          occursAt := arg.occursAt }] },
   newID)

/-- Modelled from the spec: `pgstore.CreateTrip` — the atomic "create trip +
owner participant + invited participants" transaction (spec sections 2 and
4.1): the trip starts in `Draft` (`is_confirmed = false`), the owner's own
participant record starts confirmed (spec section 8 scenario), each invited
email gets an unconfirmed participant.  Fresh ids come from the generator,
modelled as parameters. -/
def CreateTrip (s : Storage) (params : CreateTripRequest)
    (newTripID ownerParticipantID : Nat) (invitedParticipantIDs : List Nat) :
    Storage × Nat :=
  ({ s with
     trips := s.trips ++
       [{ id := newTripID
          destination := params.destination
          ownerEmail := params.ownerEmail
          ownerName := params.ownerName
          startsAt := params.startsAt
          endsAt := params.endsAt
          isConfirmed := false }]
     participants := s.participants ++
       [{ id := ownerParticipantID, tripID := newTripID,
          email := params.ownerEmail, isConfirmed := true }] ++
       (invitedParticipantIDs.zip params.emailsToInvite).map fun pe =>
         { id := pe.1, tripID := newTripID, email := pe.2,
           isConfirmed := false } },
   newTripID)

/-! ## The API handlers (package `api`) -/

/-- The `*spec.Response` values the embedded handlers return: a 204 No
Content, a 201 Created carrying the new id, or a 400 with an error
message. -/
inductive ApiResult where
  | ok200 : ApiResult
  | noContent204 : ApiResult
  | created201 : Nat → ApiResult
  | badRequest400 : String → ApiResult
deriving DecidableEq, Repr

/-- Outcome of a handler invocation: the HTTP response, the database state
afterwards, and the messages written to the zap logger (including those of
detached mailer goroutines). -/
structure HandlerOut where
  response : ApiResult
  state : Storage
  logs : List String
deriving DecidableEq, Repr

/-- Outcome of a detached mailer call: `none` when the send returned `nil`,
`some e` when it returned error `e` (which the goroutine only logs). -/
def MailerResult := Option String

/-- `PatchParticipantsParticipantIDConfirm` (lines 55-80), after uuid
parsing: look the participant up (absent → "Participant not found"), reject
an already confirmed participant, otherwise set the flag. -/
def PatchParticipantsParticipantIDConfirm (s : Storage) (participantID : Nat) :
    HandlerOut :=
  match GetParticipant s participantID with
  | none =>
      { response := .badRequest400 "Participant not found", state := s, logs := [] }
  | some participant =>
      if participant.isConfirmed then
        { response := .badRequest400 "Participant already confirmed", state := s,
          logs := [] }
      else
        { response := .noContent204,
          state := ConfirmParticipant s participantID, logs := [] }

/-- `PostTrips` (lines 84-106), after decode and validation: run the atomic
store `CreateTrip` (its failure is the `storeFails` parameter — the handler
then answers 400 without observable rows, all-or-nothing per spec section
4.1); on success spawn the owner-confirmation email goroutine, whose error
is only logged, and answer 201 with the new trip id. -/
def PostTrips (s : Storage) (body : CreateTripRequest)
    (newTripID ownerParticipantID : Nat) (invitedParticipantIDs : List Nat)
    (storeFails : Bool) (mailerResult : MailerResult) : HandlerOut :=
  if storeFails then
    { response := .badRequest400 "Something went wrong, try again", state := s,
      logs := [] }
  else
    let created := CreateTrip s body newTripID ownerParticipantID invitedParticipantIDs
    { response := .created201 created.2
      state := created.1
      logs :=
        match mailerResult with
        | none => []
        | some _ => ["Failed to send email on PostTrips"] }

/-- `GetTripsTripID` (lines 139-163): read-only; absent id → "Trip not
found". -/
def GetTripsTripID (s : Storage) (tripID : Nat) : HandlerOut :=
  match GetTrip s tripID with
  | none => { response := .badRequest400 "Trip not found", state := s, logs := [] }
  | some _ => { response := .ok200, state := s, logs := [] }

/-- `PutTripsTripID` (lines 167-203), after uuid parsing with an
already-decoded valid body: read the trip (absent → "Trip not found", no
write), then `UpdateTrip` with the body's destination and dates and the
is_confirmed value just read (line 196). -/
def PutTripsTripID (s : Storage) (tripID : Nat) (body : PutTripsTripIDBody) :
    HandlerOut :=
  match GetTrip s tripID with
  | none => { response := .badRequest400 "Trip not found", state := s, logs := [] }
  | some trip =>
      { response := .noContent204
        state := UpdateTrip s
          { id := tripID
            destination := body.destination
            endsAt := body.endsAt
            startsAt := body.startsAt
            isConfirmed := trip.isConfirmed }
        logs := [] }

/-- `GetTripsTripIDActivities` (lines 207-285), after uuid parsing: fetch
the trip's activities and aggregate them into day buckets. -/
def GetTripsTripIDActivitiesHandler (s : Storage) (tripID : Nat) :
    HandlerOut × List GetTripActivitiesResponseOuterArray :=
  ({ response := .ok200, state := s, logs := [] },
   aggregateActivities (GetTripActivities s tripID))

/-- `PostTripsTripIDActivities` (lines 289-315), after parsing and
validation: insert the activity and answer 201 with its id. -/
def PostTripsTripIDActivities (s : Storage) (tripID : Nat)
    (body : CreateActivityRequest) (newID : Nat) : HandlerOut :=
  let created := CreateActivity s
    { tripID := tripID, title := body.title, occursAt := body.occursAt } newID
  { response := .created201 created.2, state := created.1, logs := [] }

/-- The read-and-check half of `GetTripsTripIDConfirm` (lines 325-336): look
the trip up (absent → "Trip not found"), reject an already confirmed trip
with "Trip already confirmed", otherwise hand the read trip to the write. -/
def confirmTripCheck (s : Storage) (tripID : Nat) : Except ApiResult Trip :=
  match GetTrip s tripID with
  | none => .error (.badRequest400 "Trip not found")
  | some trip =>
      if trip.isConfirmed then .error (.badRequest400 "Trip already confirmed")
      else .ok trip

/-- The write half of `GetTripsTripIDConfirm` (lines 339-345): write the
read trip's fields back with `is_confirmed = true`. -/
def confirmTripWrite (s : Storage) (tripID : Nat) (trip : Trip) : Storage :=
  UpdateTrip s
    { id := tripID
      destination := trip.destination
      endsAt := trip.endsAt
      startsAt := trip.startsAt
      isConfirmed := true }

/-- `GetTripsTripIDConfirm` (lines 319-358), after uuid parsing: check then
write, then spawn the participants-invitation email goroutine, whose error
is only logged (lines 351-355), and answer 204. -/
def GetTripsTripIDConfirm (s : Storage) (tripID : Nat)
    (mailerResult : MailerResult) : HandlerOut :=
  match confirmTripCheck s tripID with
  | .error response => { response := response, state := s, logs := [] }
  | .ok trip =>
      { response := .noContent204
        state := confirmTripWrite s tripID trip
        logs :=
          match mailerResult with
          | none => []
          | some _ => ["Failed to send email on GetTripsTripIDConfirm"] }

/-- `GetTripsTripIDParticipants` (lines 380-414): read-only. -/
def GetTripsTripIDParticipants (s : Storage) (tripID : Nat) : HandlerOut :=
  match GetTrip s tripID with
  | none => { response := .badRequest400 "Trip not found", state := s, logs := [] }
  | some trip =>
      let _ := GetParticipants s trip.id
      { response := .ok200, state := s, logs := [] }

/-! ## The operations of the service, as one step relation

Each inbound request is one atomic step on the storage (request-per-call
model, spec section 5); the non-storage inputs of a handler (decoded body,
fresh ids, store/mailer outcomes) are carried by the operation. -/

/-- One service operation together with its non-storage inputs. -/
inductive Op where
  | postTrips (body : CreateTripRequest) (newTripID ownerParticipantID : Nat)
      (invitedParticipantIDs : List Nat) (storeFails : Bool)
      (mailerResult : MailerResult)
  | getTrips
  | getTripsTripID (tripID : Nat)
  | putTripsTripID (tripID : Nat) (body : PutTripsTripIDBody)
  | getTripsTripIDActivities (tripID : Nat)
  | postTripsTripIDActivities (tripID : Nat) (body : CreateActivityRequest)
      (newID : Nat)
  | getTripsTripIDConfirm (tripID : Nat) (mailerResult : MailerResult)
  | patchParticipantsParticipantIDConfirm (participantID : Nat)
  | getTripsTripIDParticipants (tripID : Nat)

/-- The storage state after one operation (reads leave it unchanged; the
read-only handlers `GetTrips`/`GetTripsTripIDActivities`/... perform no
writes). -/
def applyOp (s : Storage) : Op → Storage
  | .postTrips body newTripID ownerParticipantID invitedParticipantIDs storeFails mailerResult =>
      (PostTrips s body newTripID ownerParticipantID invitedParticipantIDs
        storeFails mailerResult).state
  | .getTrips => s
  | .getTripsTripID tripID => (GetTripsTripID s tripID).state
  | .putTripsTripID tripID body => (PutTripsTripID s tripID body).state
  | .getTripsTripIDActivities tripID =>
      (GetTripsTripIDActivitiesHandler s tripID).1.state
  | .postTripsTripIDActivities tripID body newID =>
      (PostTripsTripIDActivities s tripID body newID).state
  | .getTripsTripIDConfirm tripID mailerResult =>
      (GetTripsTripIDConfirm s tripID mailerResult).state
  | .patchParticipantsParticipantIDConfirm participantID =>
      (PatchParticipantsParticipantIDConfirm s participantID).state
  | .getTripsTripIDParticipants tripID =>
      (GetTripsTripIDParticipants s tripID).state

/-! ## The mailpit mailer (`internal/mailer/mailpit/mailpit.go`)

Only the participants loop matters for the claims.  The per-recipient
block (build the message, set From/To, create the client, `DialAndSend`,
lines 78-104) is modelled as one fallible `send` step supplied by the
environment; every failure path inside the loop body `return`s the wrapped
error immediately. -/

/-- The loop of `SendConfirmTripEmailToTripParticipants` (lines 77-105):
returns the ids of the participants for which a send was attempted, and
`some` wrapped error if the loop aborted.  The `return` inside the loop is
modelled by stopping the recursion on the first failing recipient. -/
def sendParticipantsLoop (participants : List Participant)
    (send : Participant → Except String Unit) : List Nat × Option String :=
  match participants with
  | [] => ([], none)
  | participant :: rest =>
      match send participant with
      | .error e =>
          ([participant.id],
           some ("mailpit: failed to send email for SendConfirmTripEmailToTripParticipants: " ++ e))
      | .ok _ =>
          let tail := sendParticipantsLoop rest send
          (participant.id :: tail.1, tail.2)

/-- `SendConfirmTripEmailToTripParticipants` (lines 65-108): fetch the trip
(absent → error before any send), fetch the participants, then run the send
loop. -/
def SendConfirmTripEmailToTripParticipants (s : Storage) (tripID : Nat)
    (send : Participant → Except String Unit) : List Nat × Option String :=
  match GetTrip s tripID with
  | none =>
      ([], some "mailpit: failed to get trip for SendConfirmTripEmailToTripParticipants")
  | some _ => sendParticipantsLoop (GetParticipants s tripID) send

/-! ## Concurrent confirmation

Two concurrent invocations of `GetTripsTripIDConfirm` on the same id run on
independent tasks (request-per-call model, spec section 5).  The handler's
check (lines 325-336) and write (lines 339-345) are separate storage
round-trips, so the interleaving in which both checks run before either
write is a possible execution; `confirmTripRace` is that execution. -/

/-- Two concurrent `GetTripsTripIDConfirm` calls on the same id, under the
interleaving check-A, check-B, write-A, write-B: the responses of both calls
and the final storage. -/
def confirmTripRace (s : Storage) (tripID : Nat) : ApiResult × ApiResult × Storage :=
  match confirmTripCheck s tripID, confirmTripCheck s tripID with
  | .error r1, .error r2 => (r1, r2, s)
  | .error r1, .ok trip2 => (r1, .noContent204, confirmTripWrite s tripID trip2)
  | .ok trip1, .error r2 => (.noContent204, r2, confirmTripWrite s tripID trip1)
  | .ok trip1, .ok trip2 =>
      (.noContent204, .noContent204,
       confirmTripWrite (confirmTripWrite s tripID trip1) tripID trip2)

/-! ## Concrete data for witnesses and counterexamples -/

/-- A concrete unconfirmed trip. -/
def sampleTrip : Trip :=
  { id := 1, destination := "Rio de Janeiro", ownerEmail := "ana@x.com",
    ownerName := "Ana", startsAt := ⟨2024, 6, 1, 0⟩, endsAt := ⟨2024, 6, 10, 0⟩,
    isConfirmed := false }

/-- A concrete unconfirmed participant of `sampleTrip`. -/
def sampleParticipant : Participant :=
  { id := 7, tripID := 1, email := "bob@x.com", isConfirmed := false }

/-- A second unconfirmed participant of `sampleTrip`. -/
def carolParticipant : Participant :=
  { id := 8, tripID := 1, email := "carol@x.com", isConfirmed := false }

/-- A concrete storage holding `sampleTrip` and `sampleParticipant`. -/
def sampleStorage : Storage :=
  { trips := [sampleTrip], participants := [sampleParticipant], activities := [] }

/-- A concrete storage whose trip has two unconfirmed participants. -/
def mailerStorage : Storage :=
  { trips := [sampleTrip], participants := [sampleParticipant, carolParticipant],
    activities := [] }

/-- An environment in which sending to participant 7 fails
(`DialAndSend` returns an error) and every other send succeeds. -/
def failingSend : Participant → Except String Unit := fun participant =>
  if participant.id == 7 then .error "dial tcp: connection refused" else .ok ()

/-- Example activities dated 2024-01-03, 2024-01-01, 2024-01-03, in that
input order (spec section 8). -/
def exActivity1 : Activity :=
  { id := 1, tripID := 1, title := "Hike", occursAt := ⟨2024, 1, 3, 9⟩ }

/-- Second example activity (2024-01-01). -/
def exActivity2 : Activity :=
  { id := 2, tripID := 1, title := "Museum", occursAt := ⟨2024, 1, 1, 14⟩ }

/-- Third example activity (2024-01-03 again). -/
def exActivity3 : Activity :=
  { id := 3, tripID := 1, title := "Beach", occursAt := ⟨2024, 1, 3, 18⟩ }

/-- The example input list of spec section 8. -/
def exActivities : List Activity := [exActivity1, exActivity2, exActivity3]

/-- A concrete already-confirmed trip. -/
def confirmedTrip : Trip :=
  { id := 2, destination := "Paris", ownerEmail := "eve@x.com",
    ownerName := "Eve", startsAt := ⟨2024, 8, 1, 0⟩, endsAt := ⟨2024, 8, 5, 0⟩,
    isConfirmed := true }

/-- A concrete already-confirmed participant of `confirmedTrip`. -/
def confirmedParticipant : Participant :=
  { id := 9, tripID := 2, email := "dan@x.com", isConfirmed := true }

/-- A concrete storage whose trip and participant are already confirmed. -/
def monoStorage : Storage :=
  { trips := [confirmedTrip], participants := [confirmedParticipant],
    activities := [] }

/-- A concrete update body. -/
def lyonBody : PutTripsTripIDBody :=
  { destination := "Lyon", endsAt := ⟨2024, 9, 2, 0⟩, startsAt := ⟨2024, 9, 1, 0⟩ }

/-- The first output bucket for `exActivities`: date 2024-01-03 holding both
2024-01-03 activities in input order. -/
def exBucket3 : GetTripActivitiesResponseOuterArray :=
  { date := ⟨2024, 1, 3, 0⟩,
    activities := [{ id := 1, occursAt := ⟨2024, 1, 3, 9⟩, title := "Hike" },
                   { id := 3, occursAt := ⟨2024, 1, 3, 18⟩, title := "Beach" }] }

/-! ## Helper lemmas -/

/-- `find?` on a key predicate commutes with a `map` that preserves the
key. -/
theorem find?_map_of_key_preserved {α : Type} (l : List α) (f : α → α)
    (key : α → Nat) (hf : ∀ t, key (f t) = key t) (id : Nat) :
    (l.map f).find? (fun t => key t == id) =
      (l.find? (fun t => key t == id)).map f := by
  induction l with
  | nil => rfl
  | cons hd tl ih =>
      simp only [List.map_cons, List.find?_cons, hf hd]
      cases key hd == id with
      | true => rfl
      | false => exact ih

/-- Under unique trip ids, `find?` by id returns the row any index holds. -/
theorem find?_id_unique (l : List Trip) (id : Nat) (trip t0 : Trip)
    (hn : (l.map Trip.id).Nodup)
    (hf : l.find? (fun t => t.id == id) = some trip)
    (hm : t0 ∈ l) (hid : t0.id = id) : trip = t0 := by
  induction l with
  | nil => cases hm
  | cons hd tl ih =>
      rw [List.map_cons, List.nodup_cons] at hn
      rw [List.find?_cons] at hf
      rcases List.mem_cons.mp hm with h0 | h0
      · subst h0
        rw [hid] at hf
        simp only [beq_self_eq_true] at hf
        exact (Option.some.inj hf).symm
      · cases hbeq : (hd.id == id) with
        | true =>
            rw [hbeq] at hf
            exfalso
            apply hn.1
            rw [beq_iff_eq] at hbeq
            rw [hbeq, ← hid]
            exact List.mem_map_of_mem Trip.id h0
        | false =>
            rw [hbeq] at hf
            exact ih hn.2 hf h0

/-- `GetTrip` looks through `UpdateTrip`: the update maps the rows and
preserves ids, so the lookup returns the mapped row. -/
theorem GetTrip_UpdateTrip (s : Storage) (arg : UpdateTripParams) (id : Nat) :
    GetTrip (UpdateTrip s arg) id =
      (GetTrip s id).map fun trip =>
        if trip.id == arg.id then
          { trip with
            destination := arg.destination
            endsAt := arg.endsAt
            startsAt := arg.startsAt
            isConfirmed := arg.isConfirmed }
        else trip := by
  unfold GetTrip UpdateTrip
  apply find?_map_of_key_preserved
  intro t
  cases h : (t.id == arg.id) <;> simp

/-- Specialization of `GetTrip_UpdateTrip` to the write performed by
`GetTripsTripIDConfirm`. -/
theorem GetTrip_confirmTripWrite (s : Storage) (id : Nat) (trip : Trip) :
    GetTrip (confirmTripWrite s id trip) id =
      (GetTrip s id).map fun t =>
        if t.id == id then
          { t with
            destination := trip.destination
            endsAt := trip.endsAt
            startsAt := trip.startsAt
            isConfirmed := true }
        else t := by
  unfold confirmTripWrite
  exact GetTrip_UpdateTrip ..

/-- `GetParticipant` looks through `ConfirmParticipant`. -/
theorem GetParticipant_ConfirmParticipant (s : Storage) (pid id : Nat) :
    GetParticipant (ConfirmParticipant s pid) id =
      (GetParticipant s id).map fun p =>
        if p.id == pid then { p with isConfirmed := true } else p := by
  unfold GetParticipant ConfirmParticipant
  apply find?_map_of_key_preserved
  intro p
  cases h : (p.id == pid) <;> simp

/-! ## The claims -/

/-- C1: a `ConfirmTrip` call on a stored unconfirmed trip succeeds and
afterwards `GetTrip` reports `is_confirmed = true`; a second sequential call
on the same id is rejected with the already-confirmed error; a call on an id
absent from storage is rejected with the not-found error. -/
theorem confirmTrip_success_then_rejected (s : Storage) (id : Nat)
    (trip : Trip) (m m2 m3 : MailerResult) :
    (GetTrip s id = some trip → trip.isConfirmed = false →
      (GetTripsTripIDConfirm s id m).response = .noContent204 ∧
      (GetTrip (GetTripsTripIDConfirm s id m).state id).map Trip.isConfirmed =
        some true ∧
      (GetTripsTripIDConfirm (GetTripsTripIDConfirm s id m).state id m2).response =
        .badRequest400 "Trip already confirmed")
    ∧ (GetTrip s id = none →
      (GetTripsTripIDConfirm s id m3).response = .badRequest400 "Trip not found") := by
  constructor
  · intro h hc
    have h' : s.trips.find? (fun t => t.id == id) = some trip := h
    have hbeq0 := List.find?_some h'
    have hbeq : (trip.id == id) = true := hbeq0
    have hcheck : confirmTripCheck s id = .ok trip := by
      unfold confirmTripCheck
      rw [h]
      simp [hc]
    have hstate : (GetTripsTripIDConfirm s id m).state = confirmTripWrite s id trip := by
      unfold GetTripsTripIDConfirm
      rw [hcheck]
    have hresp : (GetTripsTripIDConfirm s id m).response = .noContent204 := by
      unfold GetTripsTripIDConfirm
      rw [hcheck]
    have hget2 : GetTrip (confirmTripWrite s id trip) id =
        some { trip with isConfirmed := true } := by
      rw [GetTrip_confirmTripWrite, h]
      show some (if (trip.id == id) = true then _ else trip) = _
      rw [if_pos hbeq]
    refine ⟨hresp, ?_, ?_⟩
    · rw [hstate, hget2]
      rfl
    · rw [hstate]
      unfold GetTripsTripIDConfirm confirmTripCheck
      rw [hget2]
      rfl
  · intro h
    unfold GetTripsTripIDConfirm confirmTripCheck
    rw [h]

/-- Witness for C1 on `sampleStorage`. -/
theorem confirmTrip_success_then_rejected_witness :
    (GetTripsTripIDConfirm sampleStorage 1 none).response = .noContent204 ∧
    (GetTrip (GetTripsTripIDConfirm sampleStorage 1 none).state 1).map
      Trip.isConfirmed = some true ∧
    (GetTripsTripIDConfirm (GetTripsTripIDConfirm sampleStorage 1 none).state 1
      none).response = .badRequest400 "Trip already confirmed" :=
  (confirmTrip_success_then_rejected sampleStorage 1 sampleTrip none none none).1
    rfl rfl

/-- C5: a `ConfirmParticipant` call on a stored unconfirmed participant
succeeds exactly once (the second sequential call is rejected as already
confirmed), an unknown id is rejected as not found, and both the response
and the resulting participants table are independent of the trips table —
in particular of the parent trip's `is_confirmed` state. -/
theorem confirmParticipant_single_success (s : Storage) (pid : Nat)
    (participant : Participant) :
    (GetParticipant s pid = some participant → participant.isConfirmed = false →
      (PatchParticipantsParticipantIDConfirm s pid).response = .noContent204 ∧
      (GetParticipant (PatchParticipantsParticipantIDConfirm s pid).state pid).map
        Participant.isConfirmed = some true ∧
      (PatchParticipantsParticipantIDConfirm
          (PatchParticipantsParticipantIDConfirm s pid).state pid).response =
        .badRequest400 "Participant already confirmed")
    ∧ (GetParticipant s pid = none →
      (PatchParticipantsParticipantIDConfirm s pid).response =
        .badRequest400 "Participant not found")
    ∧ (∀ (trips1 trips2 : List Trip) (parts : List Participant)
        (actvs : List Activity),
      (PatchParticipantsParticipantIDConfirm ⟨trips1, parts, actvs⟩ pid).response =
        (PatchParticipantsParticipantIDConfirm ⟨trips2, parts, actvs⟩ pid).response ∧
      (PatchParticipantsParticipantIDConfirm ⟨trips1, parts, actvs⟩ pid).state.participants =
        (PatchParticipantsParticipantIDConfirm ⟨trips2, parts, actvs⟩ pid).state.participants) := by
  refine ⟨?_, ?_, ?_⟩
  · intro h hc
    have h' : s.participants.find? (fun p => p.id == pid) = some participant := h
    have hbeq0 := List.find?_some h'
    have hbeq : (participant.id == pid) = true := hbeq0
    have hout : PatchParticipantsParticipantIDConfirm s pid =
        { response := .noContent204, state := ConfirmParticipant s pid, logs := [] } := by
      unfold PatchParticipantsParticipantIDConfirm
      rw [h]
      simp [hc]
    have hget2 : GetParticipant (ConfirmParticipant s pid) pid =
        some { participant with isConfirmed := true } := by
      rw [GetParticipant_ConfirmParticipant, h]
      show some (if (participant.id == pid) = true then _ else participant) = _
      rw [if_pos hbeq]
    refine ⟨by rw [hout], ?_, ?_⟩
    · rw [hout]
      show (GetParticipant (ConfirmParticipant s pid) pid).map _ = _
      rw [hget2]
      rfl
    · rw [hout]
      show (PatchParticipantsParticipantIDConfirm (ConfirmParticipant s pid) pid).response = _
      unfold PatchParticipantsParticipantIDConfirm
      rw [hget2]
      rfl
  · intro h
    unfold PatchParticipantsParticipantIDConfirm
    rw [h]
  · intro trips1 trips2 parts actvs
    have h1 : GetParticipant ⟨trips1, parts, actvs⟩ pid =
        parts.find? (fun p => p.id == pid) := rfl
    have h2 : GetParticipant ⟨trips2, parts, actvs⟩ pid =
        parts.find? (fun p => p.id == pid) := rfl
    unfold PatchParticipantsParticipantIDConfirm
    rw [h1, h2]
    cases parts.find? (fun p => p.id == pid) with
    | none => exact ⟨rfl, rfl⟩
    | some participant =>
        obtain ⟨pi, pt, pe, pc⟩ := participant
        cases pc with
        | false => exact ⟨rfl, rfl⟩
        | true => exact ⟨rfl, rfl⟩

/-- Witness for C5 on `sampleStorage` (participant 7). -/
theorem confirmParticipant_single_success_witness :
    (PatchParticipantsParticipantIDConfirm sampleStorage 7).response = .noContent204 ∧
    (GetParticipant (PatchParticipantsParticipantIDConfirm sampleStorage 7).state 7).map
      Participant.isConfirmed = some true ∧
    (PatchParticipantsParticipantIDConfirm
        (PatchParticipantsParticipantIDConfirm sampleStorage 7).state 7).response =
      .badRequest400 "Participant already confirmed" :=
  (confirmParticipant_single_success sampleStorage 7 sampleParticipant).1 rfl rfl

/-- C6: the caller-visible result of `CreateTrip` (`PostTrips`) and
`ConfirmTrip` (`GetTripsTripIDConfirm`) is independent of the notification
outcome: two runs that differ only in the mailer result produce the same
response and the same storage state, and a `PostTrips` run whose store
create succeeded answers 201 with the new trip id whatever the mailer
did. -/
theorem notification_failure_never_fails_call (s : Storage) (id : Nat)
    (body : CreateTripRequest) (newTripID ownerParticipantID : Nat)
    (invitedParticipantIDs : List Nat) (storeFails : Bool)
    (m1 m2 : MailerResult) :
    ((GetTripsTripIDConfirm s id m1).response =
        (GetTripsTripIDConfirm s id m2).response)
    ∧ ((GetTripsTripIDConfirm s id m1).state = (GetTripsTripIDConfirm s id m2).state)
    ∧ ((PostTrips s body newTripID ownerParticipantID invitedParticipantIDs
          storeFails m1).response =
        (PostTrips s body newTripID ownerParticipantID invitedParticipantIDs
          storeFails m2).response)
    ∧ ((PostTrips s body newTripID ownerParticipantID invitedParticipantIDs
          storeFails m1).state =
        (PostTrips s body newTripID ownerParticipantID invitedParticipantIDs
          storeFails m2).state)
    ∧ ((PostTrips s body newTripID ownerParticipantID invitedParticipantIDs
          false m1).response = .created201 newTripID) := by
  unfold GetTripsTripIDConfirm PostTrips
  cases confirmTripCheck s id <;> cases storeFails <;>
    exact ⟨rfl, rfl, rfl, rfl, rfl⟩

/-- C8: `PutTripsTripID` on an id absent from storage answers "Trip not
found" and leaves the storage untouched. -/
theorem updateTrip_not_found_no_write (s : Storage) (id : Nat)
    (body : PutTripsTripIDBody) (h : GetTrip s id = none) :
    (PutTripsTripID s id body).response = .badRequest400 "Trip not found" ∧
    (PutTripsTripID s id body).state = s := by
  unfold PutTripsTripID
  rw [h]
  exact ⟨rfl, rfl⟩

/-- Witness for C8: trip 2 is absent from `sampleStorage`. -/
theorem updateTrip_not_found_no_write_witness :
    (PutTripsTripID sampleStorage 2
        { destination := "Lisboa", endsAt := ⟨2024, 7, 5, 0⟩,
          startsAt := ⟨2024, 7, 1, 0⟩ }).response =
      .badRequest400 "Trip not found" ∧
    (PutTripsTripID sampleStorage 2
        { destination := "Lisboa", endsAt := ⟨2024, 7, 5, 0⟩,
          startsAt := ⟨2024, 7, 1, 0⟩ }).state = sampleStorage :=
  updateTrip_not_found_no_write sampleStorage 2
    { destination := "Lisboa", endsAt := ⟨2024, 7, 5, 0⟩,
      startsAt := ⟨2024, 7, 1, 0⟩ } rfl

/-- C10: a successful `ConfirmTrip` touches nothing but the matching trip's
`is_confirmed` flag: participants and activities are untouched, and every
trip row is either returned unchanged (different id) or written back with
exactly its own destination and dates and `is_confirmed = true`. -/
theorem confirmTrip_frame (s : Storage) (id : Nat) (trip : Trip)
    (m : MailerResult) (hn : (s.trips.map Trip.id).Nodup)
    (h : GetTrip s id = some trip) (hc : trip.isConfirmed = false) :
    (GetTripsTripIDConfirm s id m).state.participants = s.participants ∧
    (GetTripsTripIDConfirm s id m).state.activities = s.activities ∧
    ∀ (i : Nat) (t0 : Trip), s.trips[i]? = some t0 →
      (GetTripsTripIDConfirm s id m).state.trips[i]? =
        some (if t0.id = id then { t0 with isConfirmed := true } else t0) := by
  have hcheck : confirmTripCheck s id = .ok trip := by
    unfold confirmTripCheck
    rw [h]
    simp [hc]
  have hstate : (GetTripsTripIDConfirm s id m).state = confirmTripWrite s id trip := by
    unfold GetTripsTripIDConfirm
    rw [hcheck]
  refine ⟨by rw [hstate]; rfl, by rw [hstate]; rfl, ?_⟩
  intro i t0 hi
  rw [hstate]
  have hmap : (confirmTripWrite s id trip).trips[i]? =
      (s.trips[i]?).map fun (t : Trip) =>
        if t.id == id then
          { t with
            destination := trip.destination
            endsAt := trip.endsAt
            startsAt := trip.startsAt
            isConfirmed := true }
        else t := by
    show (s.trips.map _)[i]? = _
    rw [List.getElem?_map]
  rw [hmap, hi]
  by_cases hid : t0.id = id
  · have h' : s.trips.find? (fun t => t.id == id) = some trip := h
    have htrip : trip = t0 :=
      find?_id_unique s.trips id trip t0 hn h' (List.getElem?_mem hi) hid
    subst htrip
    rw [if_pos hid]
    show some (if (trip.id == id) = true then _ else trip) = _
    rw [if_pos (beq_iff_eq.mpr hid)]
  · rw [if_neg hid]
    show some (if (t0.id == id) = true then _ else t0) = _
    rw [if_neg (by simp [hid])]

/-- Witness for C10 on `sampleStorage`. -/
theorem confirmTrip_frame_witness :
    (GetTripsTripIDConfirm sampleStorage 1 none).state.participants =
      sampleStorage.participants ∧
    (GetTripsTripIDConfirm sampleStorage 1 none).state.activities =
      sampleStorage.activities ∧
    (GetTripsTripIDConfirm sampleStorage 1 none).state.trips[0]? =
      some (if sampleTrip.id = 1 then { sampleTrip with isConfirmed := true }
            else sampleTrip) := by
  have h := confirmTrip_frame sampleStorage 1 sampleTrip none (by decide) rfl rfl
  exact ⟨h.1, h.2.1, h.2.2 0 sampleTrip rfl⟩

/-- C9 is false of the code: under the interleaving in which both
`GetTrip` reads precede both `UpdateTrip` writes, two concurrent
`ConfirmTrip` calls on the unconfirmed trip 1 both answer 204 — two
successes, not one success and one AlreadyConfirmed.  The handler performs
a non-atomic read-check-write, not a compare-and-set. -/
theorem confirmTrip_race_two_successes :
    (confirmTripRace sampleStorage 1).1 = ApiResult.noContent204 ∧
    (confirmTripRace sampleStorage 1).2.1 = ApiResult.noContent204 := by
  exact ⟨rfl, rfl⟩

/-- C7 is false of the code: with two unconfirmed participants and an
environment in which the send to the first one (id 7) fails, the loop of
`SendConfirmTripEmailToTripParticipants` attempts only participant 7 —
participant 8, although present in the participant list after the failing
recipient, is never attempted. -/
theorem sendParticipants_abort_counterexample :
    (SendConfirmTripEmailToTripParticipants mailerStorage 1 failingSend).1 = [7] ∧
    ¬ (8 ∈ (SendConfirmTripEmailToTripParticipants mailerStorage 1 failingSend).1) ∧
    (GetParticipants mailerStorage 1).map Participant.id = [7, 8] := by
  refine ⟨rfl, by decide, rfl⟩

/-- The send loop attempts exactly the participants up to and including the
first failing recipient, then returns the wrapped error. -/
theorem sendParticipantsLoop_stops_at_first_failure
    (pre rest : List Participant) (p : Participant)
    (send : Participant → Except String Unit) (e : String)
    (hpre : ∀ q ∈ pre, send q = .ok ()) (hp : send p = .error e) :
    sendParticipantsLoop (pre ++ p :: rest) send =
      (pre.map Participant.id ++ [p.id],
       some ("mailpit: failed to send email for SendConfirmTripEmailToTripParticipants: " ++ e)) := by
  induction pre with
  | nil => simp [sendParticipantsLoop, hp]
  | cons q qs ih =>
      have hq : send q = .ok () := hpre q (List.mem_cons_self ..)
      have htail := ih fun r hr => hpre r (List.mem_cons_of_mem _ hr)
      simp [sendParticipantsLoop, hq, htail]

/-- C7 amended: a failure to send to one participant aborts the remaining
recipients — `SendConfirmTripEmailToTripParticipants` attempts exactly the
participants up to and including the first failing one and returns the
wrapped error; the participants after the failing recipient are not
attempted. -/
theorem sendParticipants_abort_on_failure (s : Storage) (tripID : Nat)
    (trip : Trip) (pre rest : List Participant) (p : Participant)
    (send : Participant → Except String Unit) (e : String)
    (ht : GetTrip s tripID = some trip)
    (hparts : GetParticipants s tripID = pre ++ p :: rest)
    (hpre : ∀ q ∈ pre, send q = .ok ()) (hp : send p = .error e) :
    SendConfirmTripEmailToTripParticipants s tripID send =
      (pre.map Participant.id ++ [p.id],
       some ("mailpit: failed to send email for SendConfirmTripEmailToTripParticipants: " ++ e)) := by
  unfold SendConfirmTripEmailToTripParticipants
  rw [ht, hparts]
  exact sendParticipantsLoop_stops_at_first_failure pre rest p send e hpre hp

/-- Witness for the amended C7 on `mailerStorage`. -/
theorem sendParticipants_abort_on_failure_witness :
    SendConfirmTripEmailToTripParticipants mailerStorage 1 failingSend =
      ([7],
       some ("mailpit: failed to send email for SendConfirmTripEmailToTripParticipants: " ++
         "dial tcp: connection refused")) :=
  sendParticipants_abort_on_failure mailerStorage 1 sampleTrip []
    [carolParticipant] sampleParticipant failingSend "dial tcp: connection refused"
    rfl rfl (by intro q hq; cases hq) rfl

/-- Two `getElem?` facts about the same list and index agree. -/
theorem getElem?_some_unique {α : Type} {l : List α} {i : Nat} {a b : α}
    (h1 : l[i]? = some a) (h2 : l[i]? = some b) : a = b := by
  rw [h1] at h2
  exact Option.some.inj h2

/-- Appending rows on the right does not disturb an existing index. -/
theorem getElem?_append_of_some {α : Type} {l : List α} (l2 : List α)
    {i : Nat} {a : α} (h : l[i]? = some a) : (l ++ l2)[i]? = some a := by
  have hlt : i < l.length := (List.getElem?_eq_some.mp h).1
  rw [List.getElem?_append_left hlt]
  exact h

/-- Index view of the rows written by `UpdateTrip`. -/
theorem UpdateTrip_trips_getElem? (s : Storage) (arg : UpdateTripParams)
    (i : Nat) :
    (UpdateTrip s arg).trips[i]? = (s.trips[i]?).map fun (t : Trip) =>
      if t.id == arg.id then
        { t with
          destination := arg.destination
          endsAt := arg.endsAt
          startsAt := arg.startsAt
          isConfirmed := arg.isConfirmed }
      else t := by
  show (s.trips.map _)[i]? = _
  rw [List.getElem?_map]

/-- The participant-confirmation write never unsets a confirmed flag. -/
theorem isConfirmed_map_confirm (pid : Nat) (p : Participant)
    (hc : p.isConfirmed = true) :
    (if p.id == pid then { p with isConfirmed := true } else p).isConfirmed = true := by
  cases hb : (p.id == pid) with
  | true => rfl
  | false => exact hc

/-- The trip-confirmation write never unsets a confirmed flag. -/
theorem isConfirmed_confirmWrite (id0 : Nat) (trip t : Trip)
    (hc : t.isConfirmed = true) :
    (if t.id == id0 then
      { t with
        destination := trip.destination
        endsAt := trip.endsAt
        startsAt := trip.startsAt
        isConfirmed := true }
    else t).isConfirmed = true := by
  cases hb : (t.id == id0) with
  | true => rfl
  | false => exact hc

/-- An operation that leaves the storage unchanged satisfies all three
monotonicity conjuncts trivially. -/
theorem monotonic_triple_of_id (s : Storage) (op : Op)
    (hs : applyOp s op = s) :
    (∀ (i : Nat) (t0 t1 : Trip), s.trips[i]? = some t0 →
        (applyOp s op).trips[i]? = some t1 →
        t0.isConfirmed = true → t1.isConfirmed = true)
    ∧ (∀ (i : Nat) (p0 p1 : Participant), s.participants[i]? = some p0 →
        (applyOp s op).participants[i]? = some p1 →
        p0.isConfirmed = true → p1.isConfirmed = true)
    ∧ (∀ (tripID0 : Nat) (body0 : PutTripsTripIDBody) (i : Nat) (t0 t1 : Trip),
        op = .putTripsTripID tripID0 body0 →
        s.trips[i]? = some t0 → (applyOp s op).trips[i]? = some t1 →
        t1.isConfirmed = t0.isConfirmed) := by
  rw [hs]
  refine ⟨?_, ?_, ?_⟩
  · intro i t0 t1 h1 h2 hc
    exact getElem?_some_unique h1 h2 ▸ hc
  · intro i p0 p1 h1 h2 hc
    exact getElem?_some_unique h1 h2 ▸ hc
  · intro _ _ i t0 t1 _ h1 h2
    rw [getElem?_some_unique h1 h2]

/-- C2: confirmation is monotonic: no single service operation ever turns
the `is_confirmed` flag of an existing trip row or participant row from
true to false; moreover `PutTripsTripID` leaves every trip row's
`is_confirmed` exactly as it was (it writes back the value it read). -/
theorem service_confirmation_monotonic (s : Storage) (op : Op)
    (hn : (s.trips.map Trip.id).Nodup) :
    (∀ (i : Nat) (t0 t1 : Trip), s.trips[i]? = some t0 →
        (applyOp s op).trips[i]? = some t1 →
        t0.isConfirmed = true → t1.isConfirmed = true)
    ∧ (∀ (i : Nat) (p0 p1 : Participant), s.participants[i]? = some p0 →
        (applyOp s op).participants[i]? = some p1 →
        p0.isConfirmed = true → p1.isConfirmed = true)
    ∧ (∀ (tripID0 : Nat) (body0 : PutTripsTripIDBody) (i : Nat) (t0 t1 : Trip),
        op = .putTripsTripID tripID0 body0 →
        s.trips[i]? = some t0 → (applyOp s op).trips[i]? = some t1 →
        t1.isConfirmed = t0.isConfirmed) := by
  cases op with
  | getTrips =>
      exact monotonic_triple_of_id s _ rfl
  | getTripsTripIDActivities tripID =>
      exact monotonic_triple_of_id s _ rfl
  | getTripsTripID tripID =>
      apply monotonic_triple_of_id
      simp only [applyOp]
      unfold GetTripsTripID
      cases GetTrip s tripID <;> rfl
  | getTripsTripIDParticipants tripID =>
      apply monotonic_triple_of_id
      simp only [applyOp]
      unfold GetTripsTripIDParticipants
      cases GetTrip s tripID <;> rfl
  | postTrips body newTripID ownerParticipantID invitedParticipantIDs storeFails mailerResult =>
      cases storeFails with
      | true => exact monotonic_triple_of_id s _ rfl
      | false =>
          refine ⟨?_, ?_, ?_⟩
          · intro i t0 t1 h1 h2 hc
            have h2' : (s.trips ++
                [{ id := newTripID, destination := body.destination,
                   ownerEmail := body.ownerEmail, ownerName := body.ownerName,
                   startsAt := body.startsAt, endsAt := body.endsAt,
                   isConfirmed := false }])[i]? = some t1 := h2
            rw [getElem?_append_of_some _ h1] at h2'
            exact Option.some.inj h2' ▸ hc
          · intro i p0 p1 h1 h2 hc
            have h2' : ((s.participants ++
                [{ id := ownerParticipantID, tripID := newTripID,
                   email := body.ownerEmail, isConfirmed := true }]) ++
                (invitedParticipantIDs.zip body.emailsToInvite).map (fun pe =>
                  { id := pe.1, tripID := newTripID, email := pe.2,
                    isConfirmed := false }))[i]? = some p1 := h2
            rw [getElem?_append_of_some _ (getElem?_append_of_some _ h1)] at h2'
            exact Option.some.inj h2' ▸ hc
          · intro _ _ i t0 t1 heq _ _
            cases heq
  | postTripsTripIDActivities tripID body newID =>
      refine ⟨?_, ?_, ?_⟩
      · intro i t0 t1 h1 h2 hc
        have h2' : s.trips[i]? = some t1 := h2
        exact getElem?_some_unique h1 h2' ▸ hc
      · intro i p0 p1 h1 h2 hc
        have h2' : s.participants[i]? = some p1 := h2
        exact getElem?_some_unique h1 h2' ▸ hc
      · intro _ _ i t0 t1 heq _ _
        cases heq
  | patchParticipantsParticipantIDConfirm participantID =>
      have htrips : (applyOp s (Op.patchParticipantsParticipantIDConfirm participantID)).trips
          = s.trips := by
        simp only [applyOp]
        unfold PatchParticipantsParticipantIDConfirm
        cases GetParticipant s participantID with
        | none => rfl
        | some q =>
            obtain ⟨qi, qt, qe, qc⟩ := q
            cases qc <;> rfl
      refine ⟨?_, ?_, ?_⟩
      · intro i t0 t1 h1 h2 hc
        rw [htrips] at h2
        exact getElem?_some_unique h1 h2 ▸ hc
      · intro i p0 p1 h1 h2 hc
        simp only [applyOp] at h2
        unfold PatchParticipantsParticipantIDConfirm at h2
        cases hq : GetParticipant s participantID with
        | none =>
            rw [hq] at h2
            exact getElem?_some_unique h1 h2 ▸ hc
        | some q =>
            rw [hq] at h2
            obtain ⟨qi, qt, qe, qc⟩ := q
            cases qc with
            | true =>
                exact getElem?_some_unique h1 h2 ▸ hc
            | false =>
                have h2' : (s.participants.map fun (p : Participant) =>
                    if p.id == participantID then { p with isConfirmed := true }
                    else p)[i]? = some p1 := h2
                rw [List.getElem?_map, h1] at h2'
                simp only [Option.map_some'] at h2'
                rw [← Option.some.inj h2']
                exact isConfirmed_map_confirm participantID p0 hc
      · intro _ _ i t0 t1 heq _ _
        cases heq
  | getTripsTripIDConfirm tripID mailerResult =>
      cases hg : confirmTripCheck s tripID with
      | error r =>
          apply monotonic_triple_of_id
          simp only [applyOp]
          unfold GetTripsTripIDConfirm
          rw [hg]
      | ok trip =>
          have hs : applyOp s (Op.getTripsTripIDConfirm tripID mailerResult) =
              confirmTripWrite s tripID trip := by
            simp only [applyOp]
            unfold GetTripsTripIDConfirm
            rw [hg]
          refine ⟨?_, ?_, ?_⟩
          · intro i t0 t1 h1 h2 hc
            rw [hs] at h2
            have h2' : (s.trips.map fun (t : Trip) =>
                if t.id == tripID then
                  { t with
                    destination := trip.destination
                    endsAt := trip.endsAt
                    startsAt := trip.startsAt
                    isConfirmed := true }
                else t)[i]? = some t1 := h2
            rw [List.getElem?_map, h1] at h2'
            simp only [Option.map_some'] at h2'
            rw [← Option.some.inj h2']
            exact isConfirmed_confirmWrite tripID trip t0 hc
          · intro i p0 p1 h1 h2 hc
            rw [hs] at h2
            have h2' : s.participants[i]? = some p1 := h2
            exact getElem?_some_unique h1 h2' ▸ hc
          · intro _ _ i t0 t1 heq _ _
            cases heq
  | putTripsTripID tripID body =>
      cases hg : GetTrip s tripID with
      | none =>
          apply monotonic_triple_of_id
          simp only [applyOp]
          unfold PutTripsTripID
          rw [hg]
      | some trip =>
          have hs : applyOp s (Op.putTripsTripID tripID body) =
              UpdateTrip s
                { id := tripID
                  destination := body.destination
                  endsAt := body.endsAt
                  startsAt := body.startsAt
                  isConfirmed := trip.isConfirmed } := by
            simp only [applyOp]
            unfold PutTripsTripID
            rw [hg]
          have hwrite : ∀ (i : Nat) (t0 t1 : Trip), s.trips[i]? = some t0 →
              (applyOp s (Op.putTripsTripID tripID body)).trips[i]? = some t1 →
              t1.isConfirmed = t0.isConfirmed := by
            intro i t0 t1 h1 h2
            rw [hs] at h2
            have h2' : (s.trips.map fun (t : Trip) =>
                if t.id == tripID then
                  { t with
                    destination := body.destination
                    endsAt := body.endsAt
                    startsAt := body.startsAt
                    isConfirmed := trip.isConfirmed }
                else t)[i]? = some t1 := h2
            rw [List.getElem?_map, h1] at h2'
            simp only [Option.map_some'] at h2'
            rw [← Option.some.inj h2']
            cases hb : (t0.id == tripID) with
            | true =>
                show trip.isConfirmed = t0.isConfirmed
                have h' : s.trips.find? (fun t => t.id == tripID) = some trip := hg
                have : trip = t0 :=
                  find?_id_unique s.trips tripID trip t0 hn h'
                    (List.getElem?_mem h1) (beq_iff_eq.mp hb)
                rw [this]
            | false => rfl
          refine ⟨?_, ?_, ?_⟩
          · intro i t0 t1 h1 h2 hc
            rw [hwrite i t0 t1 h1 h2]
            exact hc
          · intro i p0 p1 h1 h2 hc
            rw [hs] at h2
            have h2' : s.participants[i]? = some p1 := h2
            exact getElem?_some_unique h1 h2' ▸ hc
          · intro tripID0 body0 i t0 t1 heq h1 h2
            injection heq with e1 e2
            subst e1
            subst e2
            exact hwrite i t0 t1 h1 h2

/-- Witness for C2: updating the already-confirmed trip 2 leaves both its
flag and the confirmed participant's flag true. -/
theorem service_confirmation_monotonic_witness :
    ((applyOp monoStorage (Op.putTripsTripID 2 lyonBody)).trips[0]?.map
      Trip.isConfirmed) = some true ∧
    ((applyOp monoStorage (Op.putTripsTripID 2 lyonBody)).participants[0]?.map
      Participant.isConfirmed) = some true := by
  have h := service_confirmation_monotonic monoStorage
    (Op.putTripsTripID 2 lyonBody) (by decide)
  have h2 : (applyOp monoStorage (Op.putTripsTripID 2 lyonBody)).trips[0]? =
      some { id := 2, destination := "Lyon", ownerEmail := "eve@x.com",
             ownerName := "Eve", startsAt := ⟨2024, 9, 1, 0⟩,
             endsAt := ⟨2024, 9, 2, 0⟩, isConfirmed := true } := rfl
  have h3 : (applyOp monoStorage (Op.putTripsTripID 2 lyonBody)).participants[0]? =
      some confirmedParticipant := rfl
  constructor
  · rw [h2]
    have := h.1 0 confirmedTrip
      { id := 2, destination := "Lyon", ownerEmail := "eve@x.com",
        ownerName := "Eve", startsAt := ⟨2024, 9, 1, 0⟩,
        endsAt := ⟨2024, 9, 2, 0⟩, isConfirmed := true } rfl h2 rfl
    exact congrArg some this
  · rw [h3]
    have := h.2.1 0 confirmedParticipant confirmedParticipant rfl h3 rfl
    exact congrArg some this

/-- Truncation does not change the calendar-day comparison (right side). -/
theorem sameDate_dateOnly_right (a b : GoTime) :
    sameDate a b.dateOnly = sameDate a b := rfl

/-- Truncation does not change the calendar-day comparison (left side). -/
theorem sameDate_dateOnly_left (a b : GoTime) :
    sameDate a.dateOnly b = sameDate a b := rfl

/-- A time falls on its own calendar day. -/
theorem sameDate_refl (a : GoTime) : sameDate a a = true := by
  simp [sameDate]

/-- A midnight time on the same calendar day as `x` is exactly `x`
truncated. -/
theorem sameDate_eq_dateOnly {d x : GoTime} (h : sameDate d x = true)
    (h0 : d.tod = 0) : d = x.dateOnly := by
  obtain ⟨dy, dm, dd, dt⟩ := d
  obtain ⟨xy, xm, xd, xt⟩ := x
  simp [sameDate] at h
  simp at h0
  simp [GoTime.dateOnly]
  obtain ⟨⟨h1, h2⟩, h3⟩ := h
  exact ⟨h1, h2, h3, h0⟩

/-- `any` over a date predicate only looks at the first components. -/
theorem any_fst_sameDate (l : List (GoTime × Nat)) (d : GoTime) :
    l.any (fun pr => sameDate pr.1 d) =
      (l.map Prod.fst).any (fun e => sameDate e d) := by
  induction l with
  | nil => rfl
  | cons x xs ih =>
      simp only [List.any_cons, List.map_cons]
      rw [ih]

/-- The date components of one first-loop iteration: unchanged when the date
was already present, extended by the truncated date otherwise. -/
theorem differentDatesStep_map_fst (acc : List (GoTime × Nat)) (a : Activity) :
    (differentDatesStep acc a).map Prod.fst =
      if acc.any (fun item => sameDate item.1 a.occursAt) then acc.map Prod.fst
      else acc.map Prod.fst ++ [a.occursAt.dateOnly] := by
  unfold differentDatesStep
  cases hany : acc.any (fun item => sameDate item.1 a.occursAt) with
  | true =>
      show (acc.map _).map Prod.fst = acc.map Prod.fst
      rw [List.map_map]
      exact List.map_congr_left fun pr _ => by
        show Prod.fst (if sameDate pr.1 a.occursAt = true then (pr.1, pr.2 + 1)
          else pr) = pr.1
        cases hsd : sameDate pr.1 a.occursAt <;> rfl
  | false =>
      show (acc ++ [(a.occursAt.dateOnly, 1)]).map Prod.fst =
        acc.map Prod.fst ++ [a.occursAt.dateOnly]
      rw [List.map_append]
      rfl

/-- The date components of the whole first loop equal the spec-side
first-seen fold. -/
theorem differentDates_foldl_map_fst (acts : List Activity)
    (acc : List (GoTime × Nat)) :
    (acts.foldl differentDatesStep acc).map Prod.fst =
      acts.foldl (fun ds a =>
        if ds.any (fun e => sameDate e a.occursAt) then ds
        else ds ++ [a.occursAt.dateOnly]) (acc.map Prod.fst) := by
  induction acts generalizing acc with
  | nil => rfl
  | cons a rest ih =>
      rw [List.foldl_cons, List.foldl_cons, ih, differentDatesStep_map_fst]
      congr 1
      rw [← any_fst_sameDate]

/-- Once some accumulator entry matches a date, it still matches after any
further iterations. -/
theorem differentDates_any_mono (acts : List Activity)
    (acc : List (GoTime × Nat)) (d : GoTime)
    (h : acc.any (fun pr => sameDate pr.1 d) = true) :
    (acts.foldl differentDatesStep acc).any (fun pr => sameDate pr.1 d) = true := by
  induction acts generalizing acc with
  | nil => exact h
  | cons a rest ih =>
      rw [List.foldl_cons]
      apply ih
      rw [any_fst_sameDate, differentDatesStep_map_fst]
      cases hany : acc.any (fun item => sameDate item.1 a.occursAt) with
      | true =>
          show (acc.map Prod.fst).any (fun e => sameDate e d) = true
          rw [← any_fst_sameDate]
          exact h
      | false =>
          show (acc.map Prod.fst ++ [a.occursAt.dateOnly]).any
            (fun e => sameDate e d) = true
          rw [List.any_append, ← any_fst_sameDate, h]
          rfl

/-- Every processed activity has a matching accumulator entry afterwards. -/
theorem differentDates_covers (acts : List Activity)
    (acc : List (GoTime × Nat)) :
    ∀ a ∈ acts,
      (acts.foldl differentDatesStep acc).any
        (fun pr => sameDate pr.1 a.occursAt) = true := by
  induction acts generalizing acc with
  | nil =>
      intro a ha
      cases ha
  | cons b rest ih =>
      intro a ha
      rw [List.foldl_cons]
      rcases List.mem_cons.mp ha with rfl | hmem
      · apply differentDates_any_mono
        rw [any_fst_sameDate, differentDatesStep_map_fst]
        cases hany : acc.any (fun item => sameDate item.1 a.occursAt) with
        | true =>
            show (acc.map Prod.fst).any (fun e => sameDate e a.occursAt) = true
            rw [← any_fst_sameDate]
            exact hany
        | false =>
            show (acc.map Prod.fst ++ [a.occursAt.dateOnly]).any
              (fun e => sameDate e a.occursAt) = true
            rw [List.any_append]
            have hd : sameDate a.occursAt.dateOnly a.occursAt = true := by
              rw [sameDate_dateOnly_left]
              exact sameDate_refl _
            simp [hd]
      · exact ih _ a hmem

/-- Every date in the accumulator after the loop either was there before or
is the truncated date of some processed activity. -/
theorem differentDates_fst_mem (acts : List Activity)
    (acc : List (GoTime × Nat)) :
    ∀ pr ∈ acts.foldl differentDatesStep acc,
      pr.1 ∈ acc.map Prod.fst ∨ ∃ a ∈ acts, pr.1 = a.occursAt.dateOnly := by
  induction acts generalizing acc with
  | nil =>
      intro pr hpr
      left
      exact List.mem_map_of_mem _ hpr
  | cons b rest ih =>
      intro pr hpr
      rw [List.foldl_cons] at hpr
      rcases ih (differentDatesStep acc b) pr hpr with hin | ⟨a, hmem, heq⟩
      · rw [differentDatesStep_map_fst] at hin
        by_cases hany : acc.any (fun item => sameDate item.1 b.occursAt) = true
        · rw [if_pos hany] at hin
          left
          exact hin
        · rw [if_neg hany] at hin
          rcases List.mem_append.mp hin with h1 | h2
          · left
            exact h1
          · right
            exact ⟨b, List.mem_cons_self .., List.mem_singleton.mp h2⟩
      · right
        exact ⟨a, List.mem_cons_of_mem _ hmem, heq⟩

/-- The accumulator dates stay pairwise on different calendar days. -/
theorem differentDates_pairwise (acts : List Activity)
    (acc : List (GoTime × Nat))
    (h : acc.Pairwise (fun x y => sameDate x.1 y.1 = false)) :
    (acts.foldl differentDatesStep acc).Pairwise
      (fun x y => sameDate x.1 y.1 = false) := by
  induction acts generalizing acc with
  | nil => exact h
  | cons b rest ih =>
      rw [List.foldl_cons]
      apply ih
      unfold differentDatesStep
      cases hany : acc.any (fun item => sameDate item.1 b.occursAt) with
      | true =>
          show (acc.map _).Pairwise _
          rw [List.pairwise_map]
          refine h.imp ?_
          intro x y hxy
          have hx : ∀ z : GoTime × Nat,
              (if sameDate z.1 b.occursAt then (z.1, z.2 + 1) else z).1 = z.1 := by
            intro z
            cases hs : sameDate z.1 b.occursAt <;> rfl
          rw [hx x, hx y]
          exact hxy
      | false =>
          show (acc ++ [(b.occursAt.dateOnly, 1)]).Pairwise _
          rw [List.pairwise_append]
          refine ⟨h, by simp, ?_⟩
          intro x hx y hy
          rw [List.mem_singleton.mp hy]
          show sameDate x.1 b.occursAt.dateOnly = false
          rw [sameDate_dateOnly_right]
          cases hsd : sameDate x.1 b.occursAt with
          | false => rfl
          | true =>
              exfalso
              have : acc.any (fun item => sameDate item.1 b.occursAt) = true :=
                List.any_eq_true.mpr ⟨x, hx, hsd⟩
              rw [hany] at this
              cases this

/-- C3: the aggregation partitions its input: every bucket holds exactly the
input activities of its calendar date in their original relative order
(`filter` characterization), every bucket date is a truncated-to-midnight
copy of its members' dates, no two buckets share a calendar date, and every
input activity falls in some bucket — hence in exactly one. -/
theorem aggregateActivities_partition (acts : List Activity) :
    (∀ b ∈ aggregateActivities acts,
        b.activities = (acts.filter fun a => sameDate b.date a.occursAt).map
          fun a => { id := a.id, occursAt := a.occursAt, title := a.title })
    ∧ (∀ b ∈ aggregateActivities acts, b.date.tod = 0)
    ∧ (∀ b ∈ aggregateActivities acts, ∀ a ∈ acts,
        sameDate b.date a.occursAt = true → b.date = a.occursAt.dateOnly)
    ∧ (aggregateActivities acts).Pairwise
        (fun b1 b2 => sameDate b1.date b2.date = false)
    ∧ (∀ a ∈ acts, ∃ b ∈ aggregateActivities acts,
        sameDate b.date a.occursAt = true) := by
  have hdate : ∀ b ∈ aggregateActivities acts, b.date.tod = 0 := by
    intro b hb
    unfold aggregateActivities at hb
    rcases List.mem_map.mp hb with ⟨pr, hpr, rfl⟩
    rcases differentDates_fst_mem acts [] pr hpr with hin | ⟨a0, _, heq⟩
    · exact absurd hin (by simp)
    · show pr.1.tod = 0
      rw [heq]
      rfl
  refine ⟨?_, hdate, ?_, ?_, ?_⟩
  · intro b hb
    unfold aggregateActivities at hb
    rcases List.mem_map.mp hb with ⟨pr, _, rfl⟩
    rfl
  · intro b hb a _ hsd
    exact sameDate_eq_dateOnly hsd (hdate b hb)
  · unfold aggregateActivities
    rw [List.pairwise_map]
    exact (differentDates_pairwise acts [] List.Pairwise.nil).imp fun h => h
  · intro a ha
    have hany := differentDates_covers acts [] a ha
    rcases List.any_eq_true.mp hany with ⟨pr, hpr, hsd⟩
    exact ⟨_, List.mem_map_of_mem _ hpr, hsd⟩

/-- Witness for C3 on the example input. -/
theorem aggregateActivities_partition_witness :
    exBucket3.activities =
      (exActivities.filter fun a => sameDate exBucket3.date a.occursAt).map
        (fun a => { id := a.id, occursAt := a.occursAt, title := a.title }) ∧
    exBucket3.date.tod = 0 ∧
    exBucket3.date = exActivity1.occursAt.dateOnly ∧
    (∃ b ∈ aggregateActivities exActivities,
      sameDate b.date exActivity2.occursAt = true) := by
  have h := aggregateActivities_partition exActivities
  exact ⟨h.1 exBucket3 (by decide), h.2.1 exBucket3 (by decide),
    h.2.2.1 exBucket3 (by decide) exActivity1 (by decide) (by decide),
    h.2.2.2.2 exActivity2 (by decide)⟩

/-- C4: the bucket sequence is ordered by first occurrence of each distinct
calendar date in the input (not sorted chronologically); on the example
input dated 2024-01-03, 2024-01-01, 2024-01-03 the buckets come out as
[2024-01-03, 2024-01-01], the first holding both 01-03 activities in their
original relative order. -/
theorem aggregateActivities_first_seen_order :
    (∀ acts : List Activity,
      (aggregateActivities acts).map (fun b => b.date) =
        firstSeenDates (acts.map fun a => a.occursAt.dateOnly))
    ∧ aggregateActivities exActivities =
      [exBucket3,
       { date := ⟨2024, 1, 1, 0⟩,
         activities := [{ id := 2, occursAt := ⟨2024, 1, 1, 14⟩,
                          title := "Museum" }] }] := by
  constructor
  · intro acts
    unfold aggregateActivities firstSeenDates
    rw [List.map_map]
    show (differentDates acts).map Prod.fst = _
    unfold differentDates
    rw [differentDates_foldl_map_fst, List.foldl_map]
    simp only [sameDate_dateOnly_right]
    rfl
  · rfl
